import Mathlib

/-!
A shallow embedding of the realtime conversational audio pipeline of the
Lingoa frontend (files `src/frontend/src/hooks/useApi.ts`,
`src/frontend/src/hooks/useVoiceActivity.ts`, `src/frontend/src/store.ts`,
`src/frontend/src/components/ConversationScreen.tsx`), together with
theorems settling the specification claims about it.

Object URLs, HTMLAudioElements and Web Audio buffer sources are identified
by natural numbers.  Module-level mutable variables of `useApi.ts`
(`currentAudio`, `audioUrls`) become fields of an explicit state record;
the asynchronous callbacks (`onended`, `onerror`, rejected `play()`)
become events of a step function.
-/

namespace Lingoa

/-! ## Playback engine (`useApi.ts`)

Module-level state of `useApi.ts` plus instrumentation: `createdUrls`
records every `URL.createObjectURL` call and `revokeLog` every
`URL.revokeObjectURL` call; `htmlPlaying`/`webPlaying` record which
HTMLAudioElements / Web Audio buffer sources are currently sounding. -/

structure AudioState where
  /-- module-level `currentAudio : HTMLAudioElement | null` -/
  currentAudio : Option Nat
  /-- module-level `audioUrls : string[]` ("Track URLs for cleanup") -/
  audioUrls : List Nat
  /-- HTMLAudioElements currently sounding -/
  htmlPlaying : List Nat
  /-- Web Audio buffer sources currently sounding -/
  webPlaying : List Nat
  /-- every object URL ever created (`URL.createObjectURL`) -/
  createdUrls : List Nat
  /-- every revoke call (`URL.revokeObjectURL`), possibly with repeats -/
  revokeLog : List Nat
  /-- store flag `isAiSpeaking` -/
  isAiSpeaking : Bool
deriving Repr, DecidableEq

def AudioState.init : AudioState :=
  ⟨none, [], [], [], [], [], false⟩

/-- `URL.revokeObjectURL(u)` -/
def revokeURL (u : Nat) (s : AudioState) : AudioState :=
  { s with revokeLog := s.revokeLog ++ [u] }

/-- `stopAllAudio` (useApi.ts lines 88-97): pause and drop the tracked
`currentAudio` element, then revoke every URL in the `audioUrls` list and
clear it.  (Nothing in the file ever pushes into `audioUrls`, and Web
Audio buffer sources are not referenced here at all.) -/
def stopAllAudio (s : AudioState) : AudioState :=
  let s1 :=
    match s.currentAudio with
    | some a => { s with htmlPlaying := s.htmlPlaying.erase a, currentAudio := none }
    | none => s
  { s1 with revokeLog := s1.revokeLog ++ s1.audioUrls, audioUrls := [] }

/-- Asynchronous events of the playback engine.  A `speak…` event is a
`textToSpeech` call whose `playRegularTTS` succeeded far enough to start
playing through the given strategy; the `…Ended` / `…Error` /
`…PlayRejected` events are the corresponding completion callbacks.  A
`vadTickAbove` event is an `analyzeAudio` tick whose measured level is
above the silence threshold (useVoiceActivity.ts lines 303-311). -/
inductive AudioEvent where
  /-- `textToSpeech` → `playRegularTTS`, Web Audio path: create URL `u`,
  decode, start buffer source `src` (lines 262-332) -/
  | speakWeb (u src : Nat)
  /-- `textToSpeech` → `playRegularTTS`, HTMLAudioElement fallback path:
  create URL `u`, `currentAudio = audio`, play element `a` (lines 336-365) -/
  | speakHtml (u a : Nat)
  /-- Web Audio `source.onended` (lines 325-329) -/
  | webEnded (u src : Nat)
  /-- HTMLAudioElement `audio.onended` (lines 344-349) -/
  | htmlEnded (u a : Nat)
  /-- HTMLAudioElement `audio.onerror` (lines 351-357) -/
  | htmlError (u a : Nat)
  /-- `audio.play().catch(...)` (lines 359-364) -/
  | htmlPlayRejected (u a : Nat)
  /-- VAD analysis tick with `db > currentThreshold` while checking the
  barge-in branch (useVoiceActivity.ts lines 303-311) -/
  | vadTickAbove
deriving Repr, DecidableEq

def audioStep (s : AudioState) (e : AudioEvent) : AudioState :=
  match e with
  | .speakWeb u src =>
      -- textToSpeech: stopAllAudio(); setIsAiSpeaking(true); then
      -- playRegularTTS creates the URL and starts the buffer source.
      -- The source node is stored in a local variable only.
      let s := stopAllAudio s
      let s := { s with isAiSpeaking := true }
      { s with createdUrls := s.createdUrls ++ [u], webPlaying := s.webPlaying ++ [src] }
  | .speakHtml u a =>
      -- textToSpeech: stopAllAudio(); setIsAiSpeaking(true); then the
      -- fallback creates the URL, sets currentAudio and plays.
      let s := stopAllAudio s
      let s := { s with isAiSpeaking := true }
      { s with createdUrls := s.createdUrls ++ [u],
               currentAudio := some a, htmlPlaying := s.htmlPlaying ++ [a] }
  | .webEnded u src =>
      -- source.onended: setIsAiSpeaking(false); URL.revokeObjectURL(audioUrl)
      let s := { s with webPlaying := s.webPlaying.erase src, isAiSpeaking := false }
      revokeURL u s
  | .htmlEnded u a =>
      -- audio.onended: setIsAiSpeaking(false); revoke; currentAudio = null
      let s := { s with htmlPlaying := s.htmlPlaying.erase a,
                        isAiSpeaking := false, currentAudio := none }
      revokeURL u s
  | .htmlError u a =>
      -- audio.onerror: setIsAiSpeaking(false); revoke; currentAudio = null
      let s := { s with htmlPlaying := s.htmlPlaying.erase a,
                        isAiSpeaking := false, currentAudio := none }
      revokeURL u s
  | .htmlPlayRejected _u a =>
      -- play().catch: setIsAiSpeaking(false); currentAudio = null — no revoke
      { s with htmlPlaying := s.htmlPlaying.erase a,
               isAiSpeaking := false, currentAudio := none }
  | .vadTickAbove =>
      -- analyzeAudio: if (isAiSpeakingRef.current) { stopAllAudio(); setIsAiSpeaking(false) }
      if s.isAiSpeaking then
        let s := stopAllAudio s
        { s with isAiSpeaking := false }
      else s

def runAudio (es : List AudioEvent) : AudioState :=
  es.foldl audioStep AudioState.init

/-! ## Recorder stop-and-flush (`useVoiceActivity.ts`, lines 192-266) -/

/-- `MediaRecorder.state` as the code inspects it. -/
inductive RecState where
  | inactive
  | recording
  | paused
deriving Repr, DecidableEq

/-- What the platform recorder does after `stop()` is issued: fires its
`stop` event after `t` ms, fires its `error` event after `t` ms, never
fires either, or throws synchronously from `stop()` itself. -/
inductive FlushSignal where
  | stopFired (t : Nat)
  | errorFired (t : Nat)
  | never
  | stopThrew
deriving Repr, DecidableEq

/-- `buildBlob` (lines 201-213): concatenate the chunks when there are
any, otherwise return null.  Chunks are modelled by their byte sizes. -/
def buildBlob (chunks : List Nat) : Option (List Nat) :=
  if chunks.length > 0 then some chunks else none

structure FlushResult where
  /-- the promise resolved (the code has no reject path) -/
  resolved : Bool
  /-- resolution value: `Blob | null` -/
  blob : Option (List Nat)
  /-- ms from the `stopRecordingAndGetBlob` call to resolution -/
  time : Nat
deriving Repr, DecidableEq

/-- `stopRecordingAndGetBlob` (lines 192-266).  A missing or inactive
recorder resolves immediately with whatever chunks exist; otherwise the
promise resolves on the recorder's `stop`/`error` event or on the
2500 ms safety timeout, whichever comes first (the `settled` flag makes
later signals no-ops); a synchronous throw from `recorder.stop()`
resolves immediately. -/
def stopRecordingAndGetBlob (recorder : Option RecState) (chunks : List Nat)
    (sig : FlushSignal) : FlushResult :=
  match recorder with
  | none => ⟨true, buildBlob chunks, 0⟩
  | some .inactive => ⟨true, buildBlob chunks, 0⟩
  | some _ =>
    match sig with
    | .stopFired t => ⟨true, buildBlob chunks, min t 2500⟩
    | .errorFired t => ⟨true, buildBlob chunks, min t 2500⟩
    | .never => ⟨true, buildBlob chunks, 2500⟩
    | .stopThrew => ⟨true, buildBlob chunks, 0⟩

/-- The `finish` closure guarded by the `settled` flag (lines 229-237):
every incoming signal (stop event, error event, timeout) calls `finish`,
which resolves only if not already settled. -/
structure FlushRun where
  settled : Bool
  resolveCount : Nat
deriving Repr, DecidableEq

inductive FEvent where
  | stopEvt
  | errorEvt
  | timeoutEvt
deriving Repr, DecidableEq

def flushStep (r : FlushRun) (_e : FEvent) : FlushRun :=
  if r.settled then r else ⟨true, r.resolveCount + 1⟩

def runFlush (es : List FEvent) : FlushRun :=
  es.foldl flushStep ⟨false, 0⟩

/-! ## Streaming response aggregator (`useApi.ts`, `getAiResponse`,
lines 206-258) and the store's `appendAiMessage` (store.ts lines 182-184)

A parsed SSE `data:` payload is modelled with its three fields as the
code reads them; JavaScript truthiness of a string field is `≠ ""`. -/

structure SSEData where
  /-- `data.text` (absent ↦ `""`) -/
  text : String
  /-- `data.done` -/
  done : Bool
  /-- `data.full_response` (absent ↦ `""`) -/
  full_response : String
deriving Repr, DecidableEq

/-- A `TextDelta` envelope. -/
def textDelta (t : String) : SSEData := ⟨t, false, ""⟩

/-- A `Done` envelope carrying the authoritative final text. -/
def doneEnv (ft : String) : SSEData := ⟨"", true, ft⟩

structure AggState where
  /-- local accumulator `fullResponse` -/
  fullResponse : String
  /-- store field `aiMessage`, appended to by `appendAiMessage` -/
  aiMessage : String
  /-- number of `appendAiMessage` invocations (caller-visible appends) -/
  appendCalls : Nat
deriving Repr, DecidableEq

def AggState.init : AggState := ⟨"", "", 0⟩

/-- `appendAiMessage` (store.ts lines 182-184). -/
def appendAiMessage (chunk : String) (st : AggState) : AggState :=
  { st with aiMessage := st.aiMessage ++ chunk, appendCalls := st.appendCalls + 1 }

/-- Processing of one parsed `data:` payload inside `getAiResponse`
(lines 238-245): `if (data.text) { appendAiMessage(data.text);
fullResponse += data.text }` then `if (data.done && data.full_response)
{ fullResponse = data.full_response }`. -/
def processData (st : AggState) (d : SSEData) : AggState :=
  let st :=
    if d.text ≠ "" then
      { appendAiMessage d.text st with fullResponse := st.fullResponse ++ d.text }
    else st
  if d.done && d.full_response ≠ "" then { st with fullResponse := d.full_response }
  else st

def runAgg (ds : List SSEData) : AggState :=
  ds.foldl processData AggState.init

/-- How the chunked transport ends: the reader reports `done` (clean end
of stream) or a read rejects (network error). -/
inductive StreamEnd where
  | eof
  | netError
deriving Repr, DecidableEq

/-- `getAiResponse` (lines 206-258), given the parsed payloads delivered
before the stream ends and the way it ends: on clean end the loop breaks
and `fullResponse` is returned; a read error is caught and the function
returns null. -/
def getAiResponse (ds : List SSEData) (ending : StreamEnd) : Option String :=
  match ending with
  | .eof => some (runAgg ds).fullResponse
  | .netError => none

/-! ## Store timer (`store.ts` lines 160-166) and the conversation
timer tick (`ConversationScreen.tsx` lines 371-382) -/

structure TimerStore where
  /-- `speakingTime` in ms -/
  speakingTime : Nat
  /-- `targetTime` in ms (5 minutes) -/
  targetTime : Nat
deriving Repr, DecidableEq

/-- `incrementSpeakingTime` (store.ts lines 163-165). -/
def incrementSpeakingTime (ms : Nat) (st : TimerStore) : TimerStore :=
  { st with speakingTime := min (st.speakingTime + ms) st.targetTime }

structure TimerFlags where
  isSpeaking : Bool
  isAiSpeaking : Bool
  isProcessing : Bool
deriving Repr, DecidableEq

/-- One 100 ms interval tick of the speaking-time timer
(ConversationScreen.tsx lines 374-379): increment only when the user is
speaking, the AI is not, and no submit is being processed. -/
def timerTick (f : TimerFlags) (st : TimerStore) : TimerStore :=
  if f.isSpeaking && !f.isAiSpeaking && !f.isProcessing then
    incrementSpeakingTime 100 st
  else st

/-! ## Voice activity detection (`useVoiceActivity.ts`, `analyzeAudio`,
lines 283-338): per-tick state update and emitted events.  A tick is a
pair `(above, now)`: whether `db > currentThreshold`, and `Date.now()`.
The barge-in side effect of an above-threshold tick is modelled in
`audioStep` (`.vadTickAbove`); here we model the speech start and end
machine. -/

structure VadState where
  /-- `isSpeakingRef.current` -/
  isSpeaking : Bool
  /-- `speechStartTimeRef.current` -/
  speechStartTime : Nat
  /-- `silenceStartRef.current` (0 = no pending silence timer) -/
  silenceStart : Nat
  /-- `speechDurationRef.current` -/
  speechDuration : Nat
deriving Repr, DecidableEq

/-- State right after `startRecording` (lines 146-147). -/
def VadState.init : VadState := ⟨false, 0, 0, 0⟩

inductive VadEvent where
  /-- `onSpeechStart?.()` -/
  | speechStart
  /-- `onSpeechEnd?.(duration)` -/
  | speechEnd (duration : Nat)
deriving Repr, DecidableEq

/-- One `analyzeAudio` tick (lines 297-335), restricted to the VAD state
machine (volume reporting and barge-in live elsewhere). -/
def vadStep (timeout : Nat) (s : VadState) (tick : Bool × Nat) :
    VadState × List VadEvent :=
  let above := tick.1
  let now := tick.2
  if above then
    let s := { s with silenceStart := 0 }
    if !s.isSpeaking then
      let s := { s with isSpeaking := true, speechStartTime := now }
      ({ s with speechDuration := now - s.speechStartTime }, [.speechStart])
    else
      ({ s with speechDuration := now - s.speechStartTime }, [])
  else
    if s.isSpeaking then
      let s := if s.silenceStart = 0 then { s with silenceStart := now } else s
      if now - s.silenceStart > timeout then
        ({ s with isSpeaking := false, speechDuration := 0 },
         [.speechEnd s.speechDuration])
      else (s, [])
    else (s, [])

def runVadAux (timeout : Nat) (s : VadState) :
    List (Bool × Nat) → VadState × List VadEvent
  | [] => (s, [])
  | t :: rest =>
    let p := vadStep timeout s t
    let q := runVadAux timeout p.1 rest
    (q.1, p.2 ++ q.2)

def runVad (timeout : Nat) (ticks : List (Bool × Nat)) :
    VadState × List VadEvent :=
  runVadAux timeout VadState.init ticks

def isStartEvt : VadEvent → Bool
  | .speechStart => true
  | .speechEnd _ => false

def isEndEvt : VadEvent → Bool
  | .speechStart => false
  | .speechEnd _ => true

def countStarts (evs : List VadEvent) : Nat := (evs.filter isStartEvt).length

def countEnds (evs : List VadEvent) : Nat := (evs.filter isEndEvt).length

/-- Number of maximal contiguous above-threshold runs in a tick
sequence, given whether the previous tick was above threshold. -/
def countRunsFrom : Bool → List Bool → Nat
  | _, [] => 0
  | prev, b :: rest => (if b && !prev then 1 else 0) + countRunsFrom b rest

def countRuns (l : List Bool) : Nat := countRunsFrom false l

/-! ## Microphone acquisition failure handling
(`ConversationScreen.tsx`, `requestMicPermission` catch, lines 222-251;
`useVoiceActivity.ts`, `startRecording` catch, lines 150-153) -/

/-- `err.name` (or the timeout message) as the catch blocks branch on it. -/
inductive ErrName where
  | notAllowedError
  | permissionDeniedError
  | notFoundError
  | devicesNotFoundError
  | getUserMediaTimeout
  | otherError
deriving Repr, DecidableEq

/-- The component-local `permissionState` values a catch block can set. -/
inductive PermUi where
  | prompt
  | denied
deriving Repr, DecidableEq

/-- Store-level `micPermission` values. -/
inductive MicPerm where
  | prompt
  | granted
  | denied
deriving Repr, DecidableEq

structure PermEffects where
  /-- `setPermissionState(...)` value -/
  permissionState : PermUi
  /-- `setMicPermission(...)` value, `none` when not called -/
  micPermission : Option MicPerm
  /-- whether `alert(...)` was shown -/
  alerted : Bool
deriving Repr, DecidableEq

/-- The catch block of `requestMicPermission`
(ConversationScreen.tsx lines 222-251). -/
def requestMicPermissionCatch : ErrName → PermEffects
  | .notAllowedError => ⟨.denied, some .denied, false⟩
  | .permissionDeniedError => ⟨.denied, some .denied, false⟩
  | .notFoundError => ⟨.prompt, some .denied, true⟩
  | .devicesNotFoundError => ⟨.prompt, some .denied, true⟩
  | .getUserMediaTimeout => ⟨.prompt, none, false⟩
  | .otherError => ⟨.prompt, some .denied, false⟩

/-- The catch block of `startRecording` (useVoiceActivity.ts lines
150-153): every failure sets `micPermission` to denied. -/
def startRecordingCatch : ErrName → MicPerm := fun _ => .denied

/-- Actual permission refusal, as the code's first branch tests it. -/
def isRefusal : ErrName → Bool
  | .notAllowedError => true
  | .permissionDeniedError => true
  | _ => false

/-- Missing audio device, as the code's second branch tests it. -/
def isDeviceMissing : ErrName → Bool
  | .notFoundError => true
  | .devicesNotFoundError => true
  | _ => false

/-! ## Submit handling (`ConversationScreen.tsx`, `handleDone`,
lines 255-342).  Network calls, store updates and delays become an
ordered action trace; the results of the external calls and of the two
regex tests are oracles in `TurnEnv`. -/

inductive TurnAction where
  | setTranscript (s : String)
  | clearYouMeant
  /-- `transcribeAudio(blob, targetLanguage)` network call -/
  | transcribeRequest
  | clearCorrectionAct
  /-- `analyzeUserSpeech(transcript)` call -/
  | analyzeSpeechRequest
  /-- `playThinkingFiller()` call -/
  | fillerRequest
  | delayMs (n : Nat)
  | clearAiMsg
  | addUserMessage (s : String)
  /-- `getAiResponse(transcript, detectedLanguage)` network call -/
  | aiRequest
  /-- deferred `setCurrentTranslation(null)` -/
  | scheduleClearTranslation
  | addAiMessage (s : String)
  | ttsSpeak (s : String)
  /-- `startRecording()` -/
  | startRec
deriving Repr, DecidableEq

structure TurnEnv where
  /-- `transcription?.text` from `transcribeAudio` (null/absent ↦ `""`) -/
  transcriptionText : String
  /-- result of `getAiResponse` -/
  aiResponse : Option String
  /-- value of the `looksEnglish` regex test on the transcript -/
  looksEnglish : Bool
  /-- value of the `isTranslationRequest` regex test -/
  isTranslationRequest : Bool
  /-- `targetLanguage !== 'en'` -/
  targetNotEnglish : Bool
deriving Repr, DecidableEq

structure TurnUiState where
  isWaitingForUser : Bool
  isProcessing : Bool
  isAiSpeaking : Bool
deriving Repr, DecidableEq

/-- The actions of the non-empty-transcript branch (lines 275-319). -/
def handleDoneTranscriptBranch (env : TurnEnv) : List TurnAction :=
  let t := env.transcriptionText
  [.setTranscript t, .clearCorrectionAct]
  ++ (if !(env.targetNotEnglish && env.looksEnglish) then
        [TurnAction.analyzeSpeechRequest] else [])
  ++ [.fillerRequest, .delayMs 200, .clearAiMsg]
  ++ (if t ≠ "" ∧ t.trim ≠ "" ∧ t ≠ "Transcribing..." then
        [TurnAction.addUserMessage t.trim] else [])
  ++ [.aiRequest]
  ++ (if !env.isTranslationRequest then
        [TurnAction.scheduleClearTranslation] else [])
  ++ (match env.aiResponse with
      | some r =>
        if r.trim ≠ "" then
          [TurnAction.addAiMessage r.trim, .setTranscript "", .ttsSpeak r]
        else []
      | none => [])

/-- `handleDone` (lines 255-342): returns the UI state after the handler
finishes and the ordered trace of actions performed.  The flushed blob is
modelled by its byte size (`none` = null). -/
def handleDone (ui : TurnUiState) (blob : Option Nat) (env : TurnEnv) :
    TurnUiState × List TurnAction :=
  if ui.isProcessing || ui.isAiSpeaking then (ui, [])
  else
    let body : List TurnAction :=
      match blob with
      | some size =>
        if size > 0 then
          TurnAction.transcribeRequest ::
          (if env.transcriptionText ≠ "" ∧ env.transcriptionText.trim ≠ "" then
            handleDoneTranscriptBranch env
          else
            [.setTranscript "(No speech detected)", .delayMs 1000, .setTranscript ""])
        else
          [.setTranscript "(No audio recorded)", .delayMs 1000, .setTranscript ""]
      | none =>
        [.setTranscript "(No audio recorded)", .delayMs 1000, .setTranscript ""]
    ({ isWaitingForUser := true, isProcessing := false, isAiSpeaking := ui.isAiSpeaking },
     [.setTranscript "Transcribing...", .clearYouMeant] ++ body ++ [.startRec])

/-! ## Helper lemmas -/

lemma flushStep_settled (es : List FEvent) (r : FlushRun) (h : r.settled = true) :
    es.foldl flushStep r = r := by
  induction es with
  | nil => rfl
  | cons e rest ih =>
    simp only [List.foldl_cons, flushStep, h, ite_true]
    exact ih

lemma foldl_increment_le (l : List Nat) (st : TimerStore)
    (h : st.speakingTime ≤ st.targetTime) :
    (l.foldl (fun s m => incrementSpeakingTime m s) st).speakingTime ≤ st.targetTime ∧
    (l.foldl (fun s m => incrementSpeakingTime m s) st).targetTime = st.targetTime := by
  induction l generalizing st with
  | nil => exact ⟨h, rfl⟩
  | cons m rest ih =>
    have h' : (incrementSpeakingTime m st).speakingTime ≤ (incrementSpeakingTime m st).targetTime :=
      Nat.min_le_right _ _
    have := ih (incrementSpeakingTime m st) h'
    simpa [incrementSpeakingTime] using this

/-! ## Claim theorems -/

/-- Claim C1 (code bug): the claim says every object URL created by
`textToSpeech`/`playRegularTTS` is revoked exactly once on completion,
error, or interruption, and that a new `speak` leaves zero leaked URLs.
The code contradicts this (and its own `audioUrls` "Track URLs for
cleanup" list, which is never populated): in the trace where a
HTMLAudioElement-path playback with URL 0 is interrupted by a second
`textToSpeech` (Web Audio path, URL 1) that then completes, both
playbacks are over, yet URL 0 was created and never appears in the
revoke log — it is leaked. -/
theorem interrupted_tts_url_never_revoked :
    runAudio [AudioEvent.speakHtml 0 10, AudioEvent.speakWeb 1 20,
              AudioEvent.webEnded 1 20] =
      { currentAudio := none, audioUrls := [], htmlPlaying := [], webPlaying := [],
        createdUrls := [0, 1], revokeLog := [1], isAiSpeaking := false } ∧
    0 ∈ (runAudio [AudioEvent.speakHtml 0 10, AudioEvent.speakWeb 1 20,
                   AudioEvent.webEnded 1 20]).createdUrls ∧
    (runAudio [AudioEvent.speakHtml 0 10, AudioEvent.speakWeb 1 20,
               AudioEvent.webEnded 1 20]).revokeLog.count 0 = 0 := by
  decide

/-- Claim C2 (code bug): the claim says an above-threshold VAD tick while
the AI is speaking stops the current playback so that no further audio
from the cancelled clip is played.  The tick does reset `isAiSpeaking`,
but `stopAllAudio` only pauses the tracked HTMLAudioElement; a clip
playing through the Web Audio path (the code's preferred strategy) has
no tracked handle, so its buffer source keeps sounding after the tick. -/
theorem bargein_leaves_webaudio_sounding :
    (runAudio [AudioEvent.speakWeb 0 5, AudioEvent.vadTickAbove]).isAiSpeaking = false ∧
    (runAudio [AudioEvent.speakWeb 0 5, AudioEvent.vadTickAbove]).webPlaying = [5] := by
  decide

/-- Claim C3 (confirmed): for every recorder state (including one whose
stop event never fires) and every behavior of the platform recorder,
`stopRecordingAndGetBlob` resolves — with the blob built from whatever
chunks have arrived — within the bounded 2500 ms timeout, and never
rejects (the result carries `resolved = true` in every case). -/
theorem stopRecordingAndGetBlob_resolves_bounded (recorder : Option RecState)
    (chunks : List Nat) (sig : FlushSignal) :
    (stopRecordingAndGetBlob recorder chunks sig).resolved = true ∧
    (stopRecordingAndGetBlob recorder chunks sig).time ≤ 2500 ∧
    (stopRecordingAndGetBlob recorder chunks sig).blob = buildBlob chunks := by
  rcases recorder with _ | r
  · exact ⟨rfl, Nat.zero_le _, rfl⟩
  · cases r <;> cases sig <;>
      refine ⟨rfl, ?_, rfl⟩ <;> simp [stopRecordingAndGetBlob]

/-- Claim C4 (confirmed): a `TextDelta` envelope with non-empty text
appends its text to both the `fullResponse` buffer and the store's
`aiMessage` (one `appendAiMessage` call); a `Done` envelope carrying a
non-empty final text overwrites the buffer wholesale; aggregating
`[TextDelta "Hi", TextDelta " there", Done "Hi there!"]` returns
`"Hi there!"` after exactly two partial appends. -/
theorem aggregator_delta_appends_done_overrides (st : AggState) (t ft : String)
    (ht : t ≠ "") (hft : ft ≠ "") :
    processData st (textDelta t) =
      { fullResponse := st.fullResponse ++ t, aiMessage := st.aiMessage ++ t,
        appendCalls := st.appendCalls + 1 } ∧
    processData st (doneEnv ft) = { st with fullResponse := ft } ∧
    (runAgg [textDelta "Hi", textDelta " there", doneEnv "Hi there!"]).fullResponse
      = "Hi there!" ∧
    (runAgg [textDelta "Hi", textDelta " there", doneEnv "Hi there!"]).appendCalls = 2 := by
  refine ⟨?_, ?_, by decide, by decide⟩
  · simp [processData, textDelta, appendAiMessage, ht]
  · simp [processData, doneEnv, hft]

/-- Witness for C4 at a concrete input. -/
theorem aggregator_delta_appends_done_overrides_witness :
    processData AggState.init (textDelta "x") =
      { fullResponse := "x", aiMessage := "x", appendCalls := 1 } ∧
    (runAgg [textDelta "Hi", textDelta " there", doneEnv "Hi there!"]).fullResponse
      = "Hi there!" := by
  have h := aggregator_delta_appends_done_overrides AggState.init "x" "y"
    (by decide) (by decide)
  exact ⟨by rw [h.1]; decide, h.2.2.1⟩

/-- Concatenation of the delta texts of a payload list, in order. -/
def concatTexts (ds : List SSEData) : String :=
  ds.foldl (fun acc d => acc ++ d.text) ""

lemma foldl_processData_no_done (ds : List SSEData) (st : AggState)
    (h : ∀ d ∈ ds, d.done = false) :
    (ds.foldl processData st).fullResponse =
      ds.foldl (fun acc d => acc ++ d.text) st.fullResponse := by
  induction ds generalizing st with
  | nil => rfl
  | cons d rest ih =>
    have hd : d.done = false := h d (by simp)
    have hrest : ∀ x ∈ rest, x.done = false := fun x hx => h x (by simp [hx])
    simp only [List.foldl_cons]
    rw [ih _ hrest]
    by_cases ht : d.text = ""
    · simp [processData, ht, hd, String.append_empty]
    · simp [processData, ht, hd, appendAiMessage]

/-- Claim C5 (counterexample): the claim says that when the transport is
cut before a `Done` event, `getAiResponse` resolves with the accumulated
text.  But a transport cut that surfaces as a read error is swallowed by
the catch block, which returns null: after one delta `"Hi"` the
accumulated buffer is `"Hi"`, yet the call resolves with null. -/
theorem getAiResponse_netError_discards_text :
    getAiResponse [textDelta "Hi"] StreamEnd.netError = none ∧
    (runAgg [textDelta "Hi"]).fullResponse = "Hi" := by
  exact ⟨rfl, by decide⟩

/-- Claim C5 (amended): if the transport ends cleanly (the reader
reports done) before any `Done` envelope, `getAiResponse` resolves with
the text accumulated from the deltas received so far; if the transport
ends with a read error, the catch handler resolves with null, discarding
the accumulated text from the returned value. -/
theorem getAiResponse_eof_resolves_accumulated (ds : List SSEData)
    (h : ∀ d ∈ ds, d.done = false) :
    getAiResponse ds StreamEnd.eof = some (concatTexts ds) ∧
    getAiResponse ds StreamEnd.netError = none := by
  refine ⟨?_, rfl⟩
  show some (runAgg ds).fullResponse = some (concatTexts ds)
  rw [runAgg, foldl_processData_no_done ds AggState.init h]
  rfl

/-- Witness for the amended C5 at a concrete input. -/
theorem getAiResponse_eof_resolves_accumulated_witness :
    getAiResponse [textDelta "Hi", textDelta " there"] StreamEnd.eof
      = some "Hi there" :=
  have h := getAiResponse_eof_resolves_accumulated
    [textDelta "Hi", textDelta " there"] (by decide)
  by rw [h.1]; rfl

/-- Claim C6 (counterexample): the claim says the VAD emits exactly one
speech-start at the first above-threshold tick of each contiguous
above-threshold run.  With `silenceTimeout = 2000` and ticks
above@0ms, below@1000ms, above@2000ms there are two contiguous
above-threshold runs, but only one start is emitted: the sub-timeout
silence gap never ends the first speech episode, so the second run does
not begin with a start event. -/
theorem vad_merged_runs_single_start :
    countRuns [true, false, true] = 2 ∧
    countStarts (runVad 2000 [(true, 0), (false, 1000), (true, 2000)]).2 = 1 := by
  decide

lemma countStarts_append (a b : List VadEvent) :
    countStarts (a ++ b) = countStarts a + countStarts b := by
  simp [countStarts, List.filter_append]

lemma countEnds_append (a b : List VadEvent) :
    countEnds (a ++ b) = countEnds a + countEnds b := by
  simp [countEnds, List.filter_append]

lemma countStarts_nil : countStarts [] = 0 := rfl

lemma countEnds_nil : countEnds [] = 0 := rfl

lemma countStarts_startSingleton : countStarts [VadEvent.speechStart] = 1 := rfl

lemma countEnds_startSingleton : countEnds [VadEvent.speechStart] = 0 := rfl

lemma countStarts_endSingleton (d : Nat) : countStarts [VadEvent.speechEnd d] = 0 := rfl

lemma countEnds_endSingleton (d : Nat) : countEnds [VadEvent.speechEnd d] = 1 := rfl

lemma vadStep_start_count (timeout : Nat) (s : VadState) (above : Bool) (now : Nat) :
    countStarts (vadStep timeout s (above, now)).2 =
      if above = true ∧ s.isSpeaking = false then 1 else 0 := by
  cases above <;> cases hs : s.isSpeaking <;>
    simp [vadStep, hs, apply_ite Prod.snd, apply_ite countStarts,
          countStarts_nil, countStarts_startSingleton, countStarts_endSingleton]

lemma vadStep_end_count (timeout : Nat) (s : VadState) (above : Bool) (now : Nat) :
    countEnds (vadStep timeout s (above, now)).2 =
      if above = false ∧ s.isSpeaking = true ∧
          timeout < now - (if s.silenceStart = 0 then now else s.silenceStart)
        then 1 else 0 := by
  by_cases h0 : s.silenceStart = 0
  all_goals cases above <;> cases hs : s.isSpeaking <;>
    simp [vadStep, hs, h0, apply_ite Prod.snd, apply_ite countEnds,
          countEnds_nil, countEnds_startSingleton, countEnds_endSingleton]

lemma vadStep_balance (timeout : Nat) (s : VadState) (t : Bool × Nat) :
    countStarts (vadStep timeout s t).2 + (if s.isSpeaking then 1 else 0) =
      countEnds (vadStep timeout s t).2 +
        (if (vadStep timeout s t).1.isSpeaking then 1 else 0) := by
  rcases t with ⟨above, now⟩
  cases above <;> cases hs : s.isSpeaking <;>
    simp [vadStep, hs, apply_ite Prod.snd, apply_ite Prod.fst,
          apply_ite countStarts, apply_ite countEnds, apply_ite VadState.isSpeaking,
          countStarts_nil, countEnds_nil, countStarts_startSingleton,
          countEnds_startSingleton, countStarts_endSingleton, countEnds_endSingleton]
  all_goals try split_ifs <;> omega

lemma runVadAux_balance (timeout : Nat) (ticks : List (Bool × Nat)) (s : VadState) :
    countStarts (runVadAux timeout s ticks).2 + (if s.isSpeaking then 1 else 0) =
      countEnds (runVadAux timeout s ticks).2 +
        (if (runVadAux timeout s ticks).1.isSpeaking then 1 else 0) := by
  induction ticks generalizing s with
  | nil => rfl
  | cons t rest ih =>
    have hstep := vadStep_balance timeout s t
    have hrest := ih (vadStep timeout s t).1
    simp only [runVadAux, countStarts_append, countEnds_append] at *
    omega

/-- Claim C6 (amended): per tick, `analyzeAudio` emits a speech-start
exactly at above-threshold ticks in the Silent state, and a speech-end
exactly at below-threshold ticks in the Speaking state where the
below-threshold time has persisted longer than `silenceTimeout`;
consequently, over any tick sequence, starts and ends strictly
alternate beginning with a start — the number of starts equals the
number of ends plus one exactly while speech is in progress, so no run
gets a duplicate start or end. -/
theorem vad_emission_characterization :
    (∀ timeout : Nat, ∀ s : VadState, ∀ above : Bool, ∀ now : Nat,
      countStarts (vadStep timeout s (above, now)).2 =
        (if above = true ∧ s.isSpeaking = false then 1 else 0) ∧
      countEnds (vadStep timeout s (above, now)).2 =
        (if above = false ∧ s.isSpeaking = true ∧
            timeout < now - (if s.silenceStart = 0 then now else s.silenceStart)
          then 1 else 0)) ∧
    (∀ timeout : Nat, ∀ ticks : List (Bool × Nat),
      countStarts (runVad timeout ticks).2 =
        countEnds (runVad timeout ticks).2 +
          (if (runVad timeout ticks).1.isSpeaking then 1 else 0)) := by
  refine ⟨fun timeout s above now =>
    ⟨vadStep_start_count timeout s above now, vadStep_end_count timeout s above now⟩,
    fun timeout ticks => ?_⟩
  have := runVadAux_balance timeout ticks VadState.init
  simpa [runVad, VadState.init] using this

/-- Claim C7 (counterexample): the claim says a "denied" outcome is
reported only for actual permission refusal.  But for a missing audio
device (`NotFoundError`) both `requestMicPermission`'s catch and
`startRecording`'s catch set the store's `micPermission` to denied,
although a missing device is not a refusal. -/
theorem micPermission_denied_for_missing_device :
    (requestMicPermissionCatch ErrName.notFoundError).micPermission
      = some MicPerm.denied ∧
    isRefusal ErrName.notFoundError = false ∧
    startRecordingCatch ErrName.notFoundError = MicPerm.denied := by
  decide

/-- Claim C7 (amended): the component-local `permissionState` is set to
denied exactly for actual refusals, and a missing device produces a
distinct outcome (alert, state reset to prompt); but the store-level
`micPermission` is set to denied also for missing devices and for other
non-timeout errors, and `startRecording`'s catch reports denied for
every failure cause. -/
theorem permission_outcomes_characterization (e : ErrName) :
    ((requestMicPermissionCatch e).permissionState = PermUi.denied ↔
      isRefusal e = true) ∧
    ((requestMicPermissionCatch e).alerted = true ↔ isDeviceMissing e = true) ∧
    ((requestMicPermissionCatch e).micPermission = some MicPerm.denied ↔
      (isRefusal e = true ∨ isDeviceMissing e = true ∨ e = ErrName.otherError)) ∧
    startRecordingCatch e = MicPerm.denied := by
  cases e <;> decide

/-- Claim C8 (confirmed): when the submit guard passes and the flushed
blob is null or zero bytes, `handleDone` performs no transcription
request (indeed no network action at all): its trace is exactly the
placeholder sequence — show "(No audio recorded)", wait 1000 ms, clear —
followed by a recording restart, and the final state is not processing
and waiting for the user again. -/
theorem handleDone_empty_blob_no_transcription (ui : TurnUiState) (env : TurnEnv)
    (blob : Option Nat) (hp : ui.isProcessing = false) (ha : ui.isAiSpeaking = false)
    (hb : blob = none ∨ blob = some 0) :
    (handleDone ui blob env).2 =
      [TurnAction.setTranscript "Transcribing...", TurnAction.clearYouMeant,
       TurnAction.setTranscript "(No audio recorded)", TurnAction.delayMs 1000,
       TurnAction.setTranscript "", TurnAction.startRec] ∧
    TurnAction.transcribeRequest ∉ (handleDone ui blob env).2 ∧
    TurnAction.aiRequest ∉ (handleDone ui blob env).2 ∧
    (handleDone ui blob env).1.isProcessing = false ∧
    (handleDone ui blob env).1.isWaitingForUser = true := by
  rcases hb with rfl | rfl <;> simp [handleDone, hp, ha]

/-- Witness for C8 at a concrete input. -/
theorem handleDone_empty_blob_no_transcription_witness :
    TurnAction.transcribeRequest ∉
      (handleDone ⟨true, false, false⟩ none ⟨"", none, false, false, true⟩).2 ∧
    (handleDone ⟨true, false, false⟩ none ⟨"", none, false, false, true⟩).1.isWaitingForUser
      = true :=
  have h := handleDone_empty_blob_no_transcription ⟨true, false, false⟩
    ⟨"", none, false, false, true⟩ none rfl rfl (Or.inl rfl)
  ⟨h.2.1, h.2.2.2.2⟩

/-- Claim C9 (confirmed): the speaking-time timer tick increments the
accumulator only when the user is speaking, the AI is not speaking and
no submit is being processed; on any tick during AI playback,
transcription or reply-wait the store is left unchanged. -/
theorem timer_increments_only_user_speech (f : TimerFlags) (st : TimerStore) :
    ((f.isAiSpeaking = true ∨ f.isProcessing = true ∨ f.isSpeaking = false) →
      timerTick f st = st) ∧
    ((timerTick f st).speakingTime ≠ st.speakingTime →
      f.isSpeaking = true ∧ f.isAiSpeaking = false ∧ f.isProcessing = false) := by
  rcases f with ⟨s, a, p⟩
  cases s <;> cases a <;> cases p <;> simp [timerTick]

/-- Witness for C9 at a concrete input: a tick during AI playback does
not change the store. -/
theorem timer_increments_only_user_speech_witness :
    timerTick ⟨true, true, false⟩ ⟨1000, 300000⟩ = ⟨1000, 300000⟩ :=
  (timer_increments_only_user_speech ⟨true, true, false⟩ ⟨1000, 300000⟩).1
    (Or.inl rfl)

/-- Claim C10 (confirmed): starting from any `speakingTime ≤ targetTime`,
`incrementSpeakingTime ms` sets the accumulator to
`min (speakingTime + ms) targetTime`, and any number of further
increments never pushes it past `targetTime`. -/
theorem speakingTime_capped_at_target (st : TimerStore) (ms : Nat)
    (h : st.speakingTime ≤ st.targetTime) :
    (incrementSpeakingTime ms st).speakingTime =
      min (st.speakingTime + ms) st.targetTime ∧
    ∀ increments : List Nat,
      (increments.foldl (fun s m => incrementSpeakingTime m s) st).speakingTime ≤
        st.targetTime := by
  exact ⟨rfl, fun l => (foldl_increment_le l st h).1⟩

/-- Witness for C10 at a concrete input. -/
theorem speakingTime_capped_at_target_witness :
    (incrementSpeakingTime 100 ⟨0, 300000⟩).speakingTime = min (0 + 100) 300000 ∧
    ((([100, 400000, 100] : List Nat)).foldl
      (fun s m => incrementSpeakingTime m s) ⟨0, 300000⟩).speakingTime ≤ 300000 :=
  have h := speakingTime_capped_at_target ⟨0, 300000⟩ 100 (Nat.zero_le _)
  ⟨h.1, h.2 [100, 400000, 100]⟩

end Lingoa
